import Mathlib

/-!
Shallow embedding of the two DNS-updater scripts `update_ips1.py`
(A-record reconciler) and `update_ips2.py` (CNAME reconciler).

Python strings are modelled as Lean `String`; the few Python string
operations the scripts use (`str.strip`, `str.split`, `str.isdigit`,
`int`) are re-implemented over `List Char` below.  Environment values
obtained from `os.environ.get` are `Option String` (`none` = unset).
The provider API is a collaborator: its responses (zone listing, record
listing, delete/create outcomes) are inputs to the embedded functions,
and the provider state is an explicit list of record sets.  A Python
exception that escapes a function is modelled with `Except`.
-/

/-- Python `str.strip()` whitespace class (ASCII subset). -/
def isPySpace (c : Char) : Bool :=
  c = ' ' || c = '\t' || c = '\n' || c = '\r' || c = Char.ofNat 11 || c = Char.ofNat 12

/-- `str.strip()` on the character list: drop whitespace at both ends. -/
def pyStripChars (l : List Char) : List Char :=
  ((l.dropWhile isPySpace).reverse.dropWhile isPySpace).reverse

/-- Python `s.strip()`. -/
def pyStrip (s : String) : String :=
  ⟨pyStripChars s.data⟩

/-- Python `s.split(sep)` for a one-character separator: split on every
occurrence, keeping empty pieces. -/
def pySplitCharAux (sep : Char) : List Char → List Char → List (List Char)
  | [], acc => [acc.reverse]
  | c :: cs, acc =>
    if c = sep then acc.reverse :: pySplitCharAux sep cs []
    else pySplitCharAux sep cs (c :: acc)

/-- Python `s.split('\n')`. -/
def pySplitLines (s : String) : List String :=
  (pySplitCharAux '\n' s.data []).map (fun l => ⟨l⟩)

/-- Python `line.split('#')[0]`: the prefix before the first `#`. -/
def pyHashPrefix (s : String) : String :=
  ⟨s.data.takeWhile (fun c => c ≠ '#')⟩

/-- Python `s.isdigit()` (ASCII digits): nonempty and all digits. -/
def pyIsDigit (s : String) : Bool :=
  s ≠ "" && s.data.all Char.isDigit

/-- Python `int(s)` on a digit string. -/
def pyInt (s : String) : Nat :=
  s.data.foldl (fun n c => n * 10 + (c.toNat - 48)) 0

/-- Python truthiness of an `os.environ.get` result: `None` and `""` are
falsy. -/
def pyTruthy : Option String → Bool
  | none => false
  | some s => s ≠ ""

/-- `update_ips1.py` lines 89-90: parse the response body into candidate
strings.  `lines = response.text.strip().split('\n')` followed by
`[line.split('#')[0].strip() for line in lines if line.strip()]`. -/
def parseIps (body : String) : List String :=
  let lines := pySplitLines (pyStrip body)
  (lines.filter (fun l => pyStrip l ≠ "")).map (fun l => pyStrip (pyHashPrefix l))

/-- `update_ips1.py` lines 98-103: the optional `MAX_IPS` cap.  Applied
only when `MAX_IPS` is set, truthy, all digits, and
`0 < int(MAX_IPS) < len(valid_ips)`. -/
def applyCap (maxIps : Option String) (ips : List String) : List String :=
  match maxIps with
  | none => ips
  | some s =>
    if pyTruthy (some s) && pyIsDigit s then
      let m := pyInt s
      if 0 < m && m < ips.length then ips.take m else ips
    else ips

/-- Outcome of one run of `get_preferred_ips`: the returned list, the
number of HTTP attempts issued, and the number of `time.sleep` calls. -/
structure FetchTrace where
  result : List String
  attempts : Nat
  sleeps : Nat
deriving Repr, DecidableEq

/-- The retry loop of `get_preferred_ips` (`update_ips1.py` lines
85-112).  `fetch attempt` is the collaborator: `none` models a
`requests.RequestException` (timeout, connection error, or non-2xx via
`raise_for_status`), `some body` a successful response body.
`remaining` counts the loop iterations left (`retry_count - attempt`). -/
def getPreferredIpsAux (fetch : Nat → Option String) (maxIps : Option String) :
    Nat → Nat → FetchTrace
  | _, 0 => ⟨[], 0, 0⟩
  | attempt, remaining + 1 =>
    match fetch attempt with
    | some body =>
      let validIps := parseIps body
      if validIps.isEmpty then ⟨[], 1, 0⟩
      else ⟨applyCap maxIps validIps, 1, 0⟩
    | none =>
      if remaining = 0 then ⟨[], 1, 0⟩
      else
        let t := getPreferredIpsAux fetch maxIps (attempt + 1) remaining
        ⟨t.result, t.attempts + 1, t.sleeps + 1⟩

/-- `update_ips1.py` line 83: `retry_count = 3`. -/
def retryCount : Nat := 3

/-- `get_preferred_ips()` of `update_ips1.py`. -/
def getPreferredIps (fetch : Nat → Option String) (maxIps : Option String) : FetchTrace :=
  getPreferredIpsAux fetch maxIps 0 retryCount

/-- A provider record set: id, fully-qualified name, type, routing line
(`none` models a record object without an explicit line value), value
list, TTL. -/
structure RecordSet where
  id : Nat
  name : String
  rtype : String
  line : Option String
  records : List String
  ttl : Nat
deriving Repr, DecidableEq

/-- A public zone as returned by the zone listing: name and id. -/
structure PubZone where
  name : String
  id : Nat
deriving Repr, DecidableEq

/-- `init_huawei_dns_client()` (identical in both scripts): fails when
AK, SK or Project ID is falsy, otherwise succeeds iff the SDK client
build (`buildOk`) does not raise. -/
def initHuaweiDnsClient (ak sk projectId : Option String) (buildOk : Bool) : Bool :=
  if !(pyTruthy ak && pyTruthy sk && pyTruthy projectId) then false
  else buildOk

/-- `get_zone_id()` (identical in both scripts): fails when the zone
name is falsy or the listing raises (`zones = none`); otherwise returns
the id of the first zone whose name equals `zoneName + "."`. -/
def getZoneIdFun (zoneName : Option String) (zones : Option (List PubZone)) : Option Nat :=
  match zoneName with
  | none => none
  | some zn =>
    if zn = "" then none
    else
      match zones with
      | none => none
      | some zs => (zs.find? (fun z => z.name == zn ++ ".")).map PubZone.id

/-- Server-side filter of `ListRecordSetsByZoneRequest(name=..., type=...)`:
the record sets of the zone whose name and type match exactly. -/
def serverListRecordSets (st : List RecordSet) (n t : String) : List RecordSet :=
  st.filter (fun r => r.name == n && r.rtype == t)

/-- `update_ips1.py` line 129: the client-side line check
`record.line == "default"`.  A record without a line value compares
unequal. -/
def isDefaultLineA (r : RecordSet) : Bool :=
  match r.line with
  | none => false
  | some l => l == "default"

/-- `update_ips2.py` line 89: the client-side line check
`not hasattr(record, 'line') or record.line == "default"`. -/
def isDefaultLineCname (r : RecordSet) : Bool :=
  match r.line with
  | none => true
  | some l => l == "default"

/-- `get_existing_dns_records()` of `update_ips1.py`: on a listing
exception (`listOk = false`) the handler returns `[]`; otherwise the
server-filtered record sets are filtered by `record.line == "default"`. -/
def getExistingDnsRecords (st : List RecordSet) (domain : String) (listOk : Bool) :
    List RecordSet :=
  if listOk then
    (serverListRecordSets st (domain ++ ".") "A").filter isDefaultLineA
  else []

/-- `get_existing_cname_record()` of `update_ips2.py`: on a listing
exception the handler returns `None`; otherwise the first record on the
default (or unspecified) line is returned — but line 90 indexes
`record.records[0]`, so a matching record with an empty value list
raises an uncaught `IndexError`, modelled as `.error ()`. -/
def getExistingCnameRecord (st : List RecordSet) (domain : String) (listOk : Bool) :
    Except Unit (Option RecordSet) :=
  if listOk then
    match (serverListRecordSets st (domain ++ ".") "CNAME").find? isDefaultLineCname with
    | some r => if r.records.isEmpty then .error () else .ok (some r)
    | none => .ok none
  else .ok none

/-- The key of the record set `update_ips1.py` maintains:
(`DOMAIN_NAME + "."`, type `A`, line `default`). -/
def isKeyA (domain : String) (r : RecordSet) : Bool :=
  r.name == domain ++ "." && r.rtype == "A" && isDefaultLineA r

/-- Trace of one `update_ips1.py` run: delete calls issued (record ids,
in order), whether the create call was issued, the resulting provider
state, and whether the run printed the success message. -/
structure Main1Trace where
  deleteCalls : List Nat
  createCalled : Bool
  finalState : List RecordSet
  success : Bool
deriving Repr, DecidableEq

/-- `update_ips1.py` `main` lines 193-206 plus `create_dns_record_set`:
delete every listed record (a failed delete — `deleteOk r.id = false` —
leaves the state unchanged and the loop continues), then create one
record set with all candidate values, TTL 60, line `default`
(`create_dns_record_set` refuses an empty list before issuing the call). -/
def reconcileA (st : List RecordSet) (domain : String) (ips : List String)
    (listOk : Bool) (deleteOk : Nat → Bool) (createOk : Bool) (newId : Nat) :
    Main1Trace :=
  let existing := getExistingDnsRecords st domain listOk
  let st1 := existing.foldl
    (fun s r => if deleteOk r.id then s.filter (fun y => y.id != r.id) else s) st
  if ips.isEmpty then
    ⟨existing.map RecordSet.id, false, st1, false⟩
  else
    ⟨existing.map RecordSet.id, true,
      if createOk then st1 ++ [⟨newId, domain ++ ".", "A", some "default", ips, 60⟩] else st1,
      createOk⟩

/-- The environment of `update_ips1.py` (`os.environ.get` results). -/
structure Env1 where
  ak : Option String
  sk : Option String
  projectId : Option String
  zoneName : Option String
  domainName : Option String
  maxIps : Option String
deriving Repr, DecidableEq

/-- `main()` of `update_ips1.py`: abort on missing `DOMAIN_NAME`, failed
client init, failed zone resolution, or an empty candidate list;
otherwise reconcile. -/
def main1 (env : Env1) (buildOk : Bool) (zones : Option (List PubZone))
    (fetch : Nat → Option String) (st : List RecordSet) (listOk : Bool)
    (deleteOk : Nat → Bool) (createOk : Bool) (newId : Nat) : Main1Trace :=
  if !pyTruthy env.domainName then ⟨[], false, st, false⟩
  else if !initHuaweiDnsClient env.ak env.sk env.projectId buildOk then ⟨[], false, st, false⟩
  else
    match getZoneIdFun env.zoneName zones with
    | none => ⟨[], false, st, false⟩
    | some _ =>
      let newIps := (getPreferredIps fetch env.maxIps).result
      if newIps.isEmpty then ⟨[], false, st, false⟩
      else reconcileA st (env.domainName.getD "") newIps listOk deleteOk createOk newId

/-- The environment of `update_ips2.py`. -/
structure Env2 where
  ak : Option String
  sk : Option String
  projectId : Option String
  zoneName : Option String
  domainName : Option String
deriving Repr, DecidableEq

/-- `update_ips2.py` line 25: the fixed CNAME target. -/
def CNAME_TARGET : String := "cf.090227.xyz."

/-- Trace of one `update_ips2.py` run. -/
structure Main2Trace where
  deleteCalls : List Nat
  createCalled : Bool
  finalState : List RecordSet
  success : Bool
deriving Repr, DecidableEq

/-- The record set `create_cname_record()` creates: name, type `CNAME`,
the single target value, TTL 300, line `default`. -/
def newCnameRecord (domain : String) (newId : Nat) : RecordSet :=
  ⟨newId, domain ++ ".", "CNAME", some "default", [CNAME_TARGET], 300⟩

/-- `main()` of `update_ips2.py`: abort on missing `DOMAIN_NAME`, failed
client init, or failed zone resolution; then fetch the existing CNAME
record (whose internal `records[0]` access can raise, propagating out of
`main`).  If a record was found: line 146 checks
`existing_record.records and existing_record.records[0] == CNAME_TARGET`
(a no-op on match); otherwise line 153 indexes `records[0]` again while
deleting, then `create_cname_record()` runs.  With no record found, only
the create runs. -/
def main2 (env : Env2) (buildOk : Bool) (zones : Option (List PubZone))
    (st : List RecordSet) (listOk : Bool) (deleteOk : Nat → Bool)
    (createOk : Bool) (newId : Nat) : Except Unit Main2Trace :=
  if !pyTruthy env.domainName then .ok ⟨[], false, st, false⟩
  else if !initHuaweiDnsClient env.ak env.sk env.projectId buildOk then .ok ⟨[], false, st, false⟩
  else
    match getZoneIdFun env.zoneName zones with
    | none => .ok ⟨[], false, st, false⟩
    | some _ =>
      let domain := env.domainName.getD ""
      match getExistingCnameRecord st domain listOk with
      | .error e => .error e
      | .ok (some r) =>
        match r.records with
        | [] => .error ()
        | v0 :: _ =>
          if v0 == CNAME_TARGET then .ok ⟨[], false, st, true⟩
          else
            let st1 := if deleteOk r.id then st.filter (fun y => y.id != r.id) else st
            .ok ⟨[r.id], true,
              if createOk then st1 ++ [newCnameRecord domain newId] else st1,
              createOk⟩
      | .ok none =>
        .ok ⟨[], true,
          if createOk then st ++ [newCnameRecord domain newId] else st,
          createOk⟩

/-! ## Helper lemmas -/

theorem memFoldlDelete (deleteOk : Nat → Bool) :
    ∀ (rs st : List RecordSet), (∀ r ∈ rs, deleteOk r.id = true) →
    ∀ x ∈ rs.foldl
      (fun s r => if deleteOk r.id then s.filter (fun y => y.id != r.id) else s) st,
    x ∈ st ∧ ∀ r ∈ rs, x.id ≠ r.id := by
  intro rs
  induction rs with
  | nil => intro st _ x hx; exact ⟨hx, by simp⟩
  | cons r rs ih =>
    intro st h x hx
    have hr : deleteOk r.id = true := h r (List.mem_cons_self r rs)
    rw [List.foldl_cons, hr] at hx
    simp only [if_true] at hx
    have := ih (st.filter (fun y => y.id != r.id)) (fun r' hr' => h r' (List.mem_cons_of_mem r hr')) x hx
    rcases this with ⟨hmem, hrest⟩
    rw [List.mem_filter] at hmem
    refine ⟨hmem.1, ?_⟩
    intro r' hr'
    rcases List.mem_cons.mp hr' with h1 | h2
    · subst h1
      simpa using hmem.2
    · exact hrest r' h2

theorem mem_getExistingDnsRecords (st : List RecordSet) (domain : String) (x : RecordSet) :
    x ∈ getExistingDnsRecords st domain true ↔ x ∈ st ∧ isKeyA domain x = true := by
  simp only [getExistingDnsRecords, serverListRecordSets, isKeyA, if_true,
    List.mem_filter, Bool.and_eq_true, beq_iff_eq]
  tauto

/-! ## Claim theorems -/

/-- C1: A-record reconciliation invariant.  For every initial provider
state and every non-empty candidate list, if the listing, every deletion
of a matching record set, and the create call all succeed, then exactly
one record set matches the key (`DOMAIN_NAME + "."`, `A`, line
`default`) afterwards, and it holds exactly the candidate values. -/
theorem a_record_reconciliation_invariant (st : List RecordSet) (domain : String)
    (ips : List String) (newId : Nat) (deleteOk : Nat → Bool)
    (hips : ips ≠ [])
    (hdel : ∀ r ∈ getExistingDnsRecords st domain true, deleteOk r.id = true) :
    (reconcileA st domain ips true deleteOk true newId).finalState.filter (isKeyA domain)
      = [⟨newId, domain ++ ".", "A", some "default", ips, 60⟩] := by
  have hne : ips.isEmpty = false := by
    cases ips with
    | nil => exact absurd rfl hips
    | cons a l => rfl
  simp only [reconcileA, hne, Bool.false_eq_true, if_false, if_true]
  rw [List.filter_append]
  have h1 : ((getExistingDnsRecords st domain true).foldl
      (fun s r => if deleteOk r.id then s.filter (fun y => y.id != r.id) else s)
      st).filter (isKeyA domain) = [] := by
    rw [List.filter_eq_nil_iff]
    intro a ha hk
    have hmem := memFoldlDelete deleteOk (getExistingDnsRecords st domain true) st hdel a ha
    have : a ∈ getExistingDnsRecords st domain true :=
      (mem_getExistingDnsRecords st domain a).mpr ⟨hmem.1, hk⟩
    exact hmem.2 a this rfl
  rw [h1]
  simp [isKeyA, isDefaultLineA]

/-- C1 witness: two matching record sets and one unrelated one; after a
fully successful run the key matches exactly the new record set. -/
theorem a_record_reconciliation_invariant_witness :
    (reconcileA
      [⟨1, "d.", "A", some "default", ["9.9.9.9"], 60⟩,
       ⟨2, "d.", "A", some "default", ["8.8.8.8"], 60⟩,
       ⟨3, "e.", "A", some "default", ["7.7.7.7"], 60⟩]
      "d" ["1.0.0.1", "1.0.0.2"] true (fun _ => true) true 99).finalState.filter (isKeyA "d")
      = [⟨99, "d.", "A", some "default", ["1.0.0.1", "1.0.0.2"], 60⟩] :=
  a_record_reconciliation_invariant _ _ _ _ _ (by decide) (by decide)

/-- C9: best-effort deletion.  Whatever the per-record delete outcomes,
the A-record reconciler issues a delete call for every listed record set
and still issues the create call afterwards. -/
theorem best_effort_deletion (st : List RecordSet) (domain : String) (ips : List String)
    (listOk : Bool) (deleteOk : Nat → Bool) (createOk : Bool) (newId : Nat)
    (hips : ips ≠ []) :
    (reconcileA st domain ips listOk deleteOk createOk newId).deleteCalls
        = (getExistingDnsRecords st domain listOk).map RecordSet.id
      ∧ (reconcileA st domain ips listOk deleteOk createOk newId).createCalled = true := by
  have hne : ips.isEmpty = false := by
    cases ips with
    | nil => exact absurd rfl hips
    | cons a l => rfl
  constructor <;> simp [reconcileA, hne]

/-- C9 witness: both deletions fail, yet both delete calls are issued
and the create call still happens. -/
theorem best_effort_deletion_witness :
    (reconcileA
      [⟨1, "d.", "A", some "default", ["9.9.9.9"], 60⟩,
       ⟨2, "d.", "A", some "default", ["8.8.8.8"], 60⟩]
      "d" ["1.0.0.1"] true (fun _ => false) true 99).deleteCalls
        = (getExistingDnsRecords
            [⟨1, "d.", "A", some "default", ["9.9.9.9"], 60⟩,
             ⟨2, "d.", "A", some "default", ["8.8.8.8"], 60⟩] "d" true).map RecordSet.id
      ∧ (reconcileA
          [⟨1, "d.", "A", some "default", ["9.9.9.9"], 60⟩,
           ⟨2, "d.", "A", some "default", ["8.8.8.8"], 60⟩]
          "d" ["1.0.0.1"] true (fun _ => false) true 99).createCalled = true :=
  best_effort_deletion _ _ _ _ _ _ _ (by decide)

theorem isEmptyFalseOfNe {α : Type} {l : List α} (h : l ≠ []) : l.isEmpty = false := by
  cases l with
  | nil => exact absurd rfl h
  | cons a t => rfl

theorem filterMapParse (l : List String) :
    (l.filter (fun s => pyStrip s ≠ "")).map (fun s => pyStrip (pyHashPrefix s))
      = l.filterMap
          (fun s => if pyStrip s = "" then none else some (pyStrip (pyHashPrefix s))) := by
  induction l with
  | nil => rfl
  | cons a l ih =>
    have ih2 := ih
    simp only [decide_not] at ih2
    by_cases h : pyStrip a = ""
    · simp [List.filter_cons, List.filterMap_cons, h, ih2]
    · simp [List.filter_cons, List.filterMap_cons, h, ih2]

/-- C2 counterexample: a line that is entirely a comment is non-blank
before stripping, so the parser keeps it as the empty string instead of
discarding it. -/
theorem parse_discard_counterexample :
    parseIps "#x\n1.2.3.4\n" = ["", "1.2.3.4"] ∧ "" ∈ parseIps "#x\n1.2.3.4\n" := by
  decide

/-- C2 amended: the parser splits the whitespace-stripped body into
lines, discards the lines that are blank *before* comment stripping, and
maps each remaining line to its content before the first `#` with
whitespace trimmed — which may be the empty string when the line is a
pure comment.  The spec's example still parses as stated. -/
theorem parse_strips_comments (body : String) :
    parseIps body
        = (pySplitLines (pyStrip body)).filterMap
            (fun l => if pyStrip l = "" then none else some (pyStrip (pyHashPrefix l)))
      ∧ parseIps "1.2.3.4 # nice\n\n5.6.7.8\n" = ["1.2.3.4", "5.6.7.8"] := by
  refine ⟨?_, by decide⟩
  simpa only [parseIps] using filterMapParse (pySplitLines (pyStrip body))

theorem getPreferredIpsAuxAttemptsLe (fetch : Nat → Option String) (mx : Option String) :
    ∀ (n a : Nat), (getPreferredIpsAux fetch mx a n).attempts ≤ n := by
  intro n
  induction n with
  | zero => intro a; simp [getPreferredIpsAux]
  | succ n ih =>
    intro a
    simp only [getPreferredIpsAux]
    cases hfa : fetch a with
    | some body =>
      dsimp only
      split
      · exact Nat.le_add_left 1 n
      · exact Nat.le_add_left 1 n
    | none =>
      by_cases hn : n = 0
      · simp [hn]
      · have := ih (a + 1)
        simp only [hn, if_false]
        omega

/-- C5: fetch retry protocol.  If the first `k` attempts fail
(`k < 3 = retry_count`) and attempt `k` succeeds, the fetcher returns
the processed body of attempt `k` (or `[]` without further retries when
the parse is empty) after `k + 1` attempts and `k` sleeps; if all three
attempts fail it returns `[]` after exactly 3 attempts and 2 sleeps; at
most 3 attempts are ever made. -/
theorem fetch_retry_protocol (fetch : Nat → Option String) (mx : Option String)
    (k : Nat) (b : String) (hk : k < 3) (hprev : ∀ j, j < k → fetch j = none) :
    (fetch k = some b → parseIps b ≠ [] →
      getPreferredIps fetch mx = ⟨applyCap mx (parseIps b), k + 1, k⟩)
    ∧ (fetch k = some b → parseIps b = [] →
      getPreferredIps fetch mx = ⟨[], k + 1, k⟩)
    ∧ ((∀ j, j < 3 → fetch j = none) → getPreferredIps fetch mx = ⟨[], 3, 2⟩)
    ∧ (getPreferredIps fetch mx).attempts ≤ 3 := by
  refine ⟨?_, ?_, ?_, getPreferredIpsAuxAttemptsLe fetch mx 3 0⟩
  · intro hs hne
    interval_cases k
    · simp [getPreferredIps, retryCount, getPreferredIpsAux, hs, isEmptyFalseOfNe hne]
    · simp [getPreferredIps, retryCount, getPreferredIpsAux, hprev 0 (by omega), hs,
        isEmptyFalseOfNe hne]
    · simp [getPreferredIps, retryCount, getPreferredIpsAux, hprev 0 (by omega),
        hprev 1 (by omega), hs, isEmptyFalseOfNe hne]
  · intro hs hemp
    have he : (parseIps b).isEmpty = true := by rw [hemp]; rfl
    interval_cases k
    · simp [getPreferredIps, retryCount, getPreferredIpsAux, hs, he]
    · simp [getPreferredIps, retryCount, getPreferredIpsAux, hprev 0 (by omega), hs, he]
    · simp [getPreferredIps, retryCount, getPreferredIpsAux, hprev 0 (by omega),
        hprev 1 (by omega), hs, he]
  · intro hall
    simp [getPreferredIps, retryCount, getPreferredIpsAux, hall 0 (by omega),
      hall 1 (by omega), hall 2 (by omega)]

/-- C5 witness: two transport failures followed by a success yield the
third attempt's parse after 3 attempts and 2 sleeps. -/
theorem fetch_retry_protocol_witness :
    getPreferredIps (fun n => if n = 2 then some "1.1.1.1" else none) none
      = ⟨applyCap none (parseIps "1.1.1.1"), 2 + 1, 2⟩ :=
  (fetch_retry_protocol (fun n => if n = 2 then some "1.1.1.1" else none) none 2 "1.1.1.1"
    (by decide) (by decide)).1 (by decide) (by decide)

/-- C6: the `MAX_IPS` cap.  When the fetch succeeds with parsed list
`ips`, the fetcher truncates to the first `m` entries exactly when
`MAX_IPS` is a digit string with `0 < m < ips.length`; with `m` at least
the parsed count, `m = 0`, a non-numeric value, or no value at all, the
parsed list is returned unchanged. -/
theorem candidate_cap (fetch : Nat → Option String) (b s : String) (ips : List String)
    (hf : fetch 0 = some b) (hp : parseIps b = ips) (hne : ips ≠ []) :
    (pyIsDigit s = true → 0 < pyInt s → pyInt s < ips.length →
      (getPreferredIps fetch (some s)).result = ips.take (pyInt s))
    ∧ (pyIsDigit s = true → ips.length ≤ pyInt s →
      (getPreferredIps fetch (some s)).result = ips)
    ∧ (pyIsDigit s = true → pyInt s = 0 →
      (getPreferredIps fetch (some s)).result = ips)
    ∧ (pyIsDigit s = false → (getPreferredIps fetch (some s)).result = ips)
    ∧ (getPreferredIps fetch none).result = ips := by
  have hres : ∀ mx, (getPreferredIps fetch mx).result = applyCap mx ips := by
    intro mx
    simp [getPreferredIps, retryCount, getPreferredIpsAux, hf, hp, isEmptyFalseOfNe hne]
  refine ⟨?_, ?_, ?_, ?_, ?_⟩
  · intro hdig h0 hlt
    have hs' : pyTruthy (some s) = true := by
      simp only [pyIsDigit, Bool.and_eq_true] at hdig
      simpa [pyTruthy] using hdig.1
    rw [hres, applyCap]
    simp [hs', hdig, h0, hlt]
  · intro hdig hge
    have hs' : pyTruthy (some s) = true := by
      simp only [pyIsDigit, Bool.and_eq_true] at hdig
      simpa [pyTruthy] using hdig.1
    rw [hres, applyCap]
    simp [hs', hdig, Nat.not_lt.mpr hge]
  · intro hdig h0
    have hs' : pyTruthy (some s) = true := by
      simp only [pyIsDigit, Bool.and_eq_true] at hdig
      simpa [pyTruthy] using hdig.1
    rw [hres, applyCap]
    simp [hs', hdig, h0]
  · intro hdig
    rw [hres, applyCap]
    simp [hdig]
  · rw [hres]; rfl

/-- C6 witness: a cap of 2 over 3 parsed candidates keeps the first 2. -/
theorem candidate_cap_witness :
    (getPreferredIps (fun _ => some "1.1.1.1\n2.2.2.2\n3.3.3.3") (some "2")).result
      = (parseIps "1.1.1.1\n2.2.2.2\n3.3.3.3").take (pyInt "2") :=
  (candidate_cap (fun _ => some "1.1.1.1\n2.2.2.2\n3.3.3.3") "1.1.1.1\n2.2.2.2\n3.3.3.3"
    "2" (parseIps "1.1.1.1\n2.2.2.2\n3.3.3.3") rfl rfl (by decide)).1
    (by decide) (by decide) (by decide)

/-- C3 counterexample: when the record-set listing raises (the handler
returns `[]`), the run does not abort — the create call is still issued. -/
theorem listing_failure_counterexample :
    (main1 ⟨some "ak", some "sk", some "pid", some "z", some "d", none⟩ true
      (some [⟨"z.", 1⟩]) (fun _ => some "1.2.3.4") [] false
      (fun _ => true) true 5).createCalled = true := by
  decide

/-- C3 amended: a hard failure of client initialization, zone
resolution, or candidate fetching aborts the run with no deletion and no
creation; a failure of the record-set listing is swallowed as "zero
existing records", so no deletion is issued but the create call still
proceeds. -/
theorem forward_failure_propagation (env : Env1) (buildOk : Bool)
    (zones : Option (List PubZone)) (fetch : Nat → Option String) (st : List RecordSet)
    (listOk : Bool) (deleteOk : Nat → Bool) (createOk : Bool) (newId : Nat) :
    ((initHuaweiDnsClient env.ak env.sk env.projectId buildOk = false
        ∨ getZoneIdFun env.zoneName zones = none
        ∨ (getPreferredIps fetch env.maxIps).result = []) →
      main1 env buildOk zones fetch st listOk deleteOk createOk newId
        = ⟨[], false, st, false⟩)
    ∧ (listOk = false →
      (main1 env buildOk zones fetch st listOk deleteOk createOk newId).deleteCalls
        = []) := by
  constructor
  · intro h
    cases hd : pyTruthy env.domainName with
    | false => simp [main1, hd]
    | true =>
      cases hi : initHuaweiDnsClient env.ak env.sk env.projectId buildOk with
      | false => simp [main1, hd, hi]
      | true =>
        rcases h with h | h | h
        · rw [hi] at h; exact absurd h (by simp)
        · simp [main1, hd, hi, h]
        · cases hz : getZoneIdFun env.zoneName zones with
          | none => simp [main1, hd, hi, hz]
          | some z =>
            have he : (getPreferredIps fetch env.maxIps).result.isEmpty = true := by
              rw [h]; rfl
            simp [main1, hd, hi, hz, he]
  · intro hl
    subst hl
    cases hd : pyTruthy env.domainName with
    | false => simp [main1, hd]
    | true =>
      cases hi : initHuaweiDnsClient env.ak env.sk env.projectId buildOk with
      | false => simp [main1, hd, hi]
      | true =>
        cases hz : getZoneIdFun env.zoneName zones with
        | none => simp [main1, hd, hi, hz]
        | some z =>
          cases he : (getPreferredIps fetch env.maxIps).result.isEmpty with
          | true => simp [main1, hd, hi, hz, he]
          | false => simp [main1, hd, hi, hz, he, reconcileA, getExistingDnsRecords]

/-- C3 witness: an exhausted fetch aborts the run with the provider
state untouched and no mutation calls. -/
theorem forward_failure_propagation_witness :
    main1 ⟨some "ak", some "sk", some "pid", some "z", some "d", none⟩ true
      (some [⟨"z.", 1⟩]) (fun _ => none) [⟨1, "d.", "A", some "default", ["9.9.9.9"], 60⟩]
      true (fun _ => true) true 5
      = ⟨[], false, [⟨1, "d.", "A", some "default", ["9.9.9.9"], 60⟩], false⟩ :=
  (forward_failure_propagation _ _ _ _ _ _ _ _ _).1 (Or.inr (Or.inr (by decide)))

/-- C4 counterexample: a returned A record with no explicit line value
is not treated as the default line — the A-record path's filter drops
it. -/
theorem default_line_missing_counterexample :
    getExistingDnsRecords [⟨1, "d.", "A", none, ["9.9.9.9"], 60⟩] "d" true = []
      ∧ isDefaultLineA ⟨1, "d.", "A", none, ["9.9.9.9"], 60⟩ = false := by
  decide

/-- C4 amended: a record whose line exactly equals `"default"` matches
in both paths; a record with no explicit line value matches only the
CNAME path's selector, while the A-record path's filter requires the
exact value and excludes it. -/
theorem default_line_filter (r : RecordSet) (domain : String)
    (hn : r.name = domain ++ ".") :
    (r.rtype = "A" →
      (r ∈ getExistingDnsRecords [r] domain true ↔ r.line = some "default"))
    ∧ (r.rtype = "CNAME" → r.records ≠ [] →
      (getExistingCnameRecord [r] domain true = .ok (some r)
        ↔ (r.line = none ∨ r.line = some "default"))) := by
  constructor
  · intro ht
    rw [mem_getExistingDnsRecords]
    simp only [List.mem_singleton, true_and]
    cases hl : r.line with
    | none => simp [isKeyA, isDefaultLineA, hn, ht, hl]
    | some l => simp [isKeyA, isDefaultLineA, hn, ht, hl]
  · intro ht hv
    have hflt : serverListRecordSets [r] (domain ++ ".") "CNAME" = [r] := by
      simp [serverListRecordSets, hn, ht]
    cases hl : r.line with
    | none =>
      have : isDefaultLineCname r = true := by simp [isDefaultLineCname, hl]
      simp [getExistingCnameRecord, hflt, List.find?_cons, this, isEmptyFalseOfNe hv, hl]
    | some l =>
      cases hb : (l == "default") with
      | true =>
        have : isDefaultLineCname r = true := by simp [isDefaultLineCname, hl, hb]
        have hleq : l = "default" := by simpa using hb
        simp [getExistingCnameRecord, hflt, List.find?_cons, this, isEmptyFalseOfNe hv,
          hl, hleq]
      | false =>
        have : isDefaultLineCname r = false := by simp [isDefaultLineCname, hl, hb]
        have hlne : l ≠ "default" := by simpa using hb
        simp [getExistingCnameRecord, hflt, List.find?_cons, this, hl, hlne]

/-- C4 witness: an exact-`default` A record is listed, and a CNAME
record with no line value is selected by the CNAME path. -/
theorem default_line_filter_witness :
    ((⟨1, "d.", "A", some "default", ["9.9.9.9"], 60⟩ : RecordSet)
        ∈ getExistingDnsRecords [⟨1, "d.", "A", some "default", ["9.9.9.9"], 60⟩] "d" true)
    ∧ getExistingCnameRecord [⟨2, "d.", "CNAME", none, ["t."], 300⟩] "d" true
        = .ok (some ⟨2, "d.", "CNAME", none, ["t."], 300⟩) :=
  ⟨((default_line_filter ⟨1, "d.", "A", some "default", ["9.9.9.9"], 60⟩ "d"
      (by decide)).1 (by decide)).mpr (by decide),
   ((default_line_filter ⟨2, "d.", "CNAME", none, ["t."], 300⟩ "d"
      (by decide)).2 (by decide) (by decide)).mpr (Or.inl rfl)⟩

theorem main2SkipWhenFirstMatches (env : Env2) (buildOk : Bool)
    (zones : Option (List PubZone)) (st : List RecordSet) (listOk : Bool)
    (deleteOk : Nat → Bool) (createOk : Bool) (newId : Nat) (r : RecordSet)
    (rest : List String)
    (hd : pyTruthy env.domainName = true)
    (hi : initHuaweiDnsClient env.ak env.sk env.projectId buildOk = true)
    (hz : (getZoneIdFun env.zoneName zones).isSome = true)
    (hr : getExistingCnameRecord st (env.domainName.getD "") listOk = .ok (some r))
    (hv : r.records = CNAME_TARGET :: rest) :
    main2 env buildOk zones st listOk deleteOk createOk newId = .ok ⟨[], false, st, true⟩ := by
  obtain ⟨z, hz'⟩ := Option.isSome_iff_exists.mp hz
  simp only [main2, hd, hi, Bool.not_true, Bool.false_eq_true, if_false, hz', hr, hv,
    beq_self_eq_true, if_true]

theorem getExistingCnameRecordOk (st : List RecordSet) (domain : String) (listOk : Bool)
    (h : ∀ r ∈ st, r.records ≠ []) :
    ∃ o, getExistingCnameRecord st domain listOk = .ok o
      ∧ ∀ r, o = some r → r.records ≠ [] := by
  cases listOk with
  | false => exact ⟨none, by simp [getExistingCnameRecord], by simp⟩
  | true =>
    cases hf : (serverListRecordSets st (domain ++ ".") "CNAME").find? isDefaultLineCname with
    | none => exact ⟨none, by simp [getExistingCnameRecord, hf], by simp⟩
    | some r =>
      have hmem : r ∈ serverListRecordSets st (domain ++ ".") "CNAME" :=
        List.mem_of_find?_eq_some hf
      have hst : r ∈ st := (List.mem_filter.mp hmem).1
      have hne : r.records ≠ [] := h r hst
      refine ⟨some r, ?_, ?_⟩
      · simp [getExistingCnameRecord, hf, isEmptyFalseOfNe hne]
      · intro r' hr'
        cases hr'
        exact hne

/-- C7: CNAME idempotent no-op.  When the run reaches the record check
and the selected default-line record's sole value equals the target, no
delete and no create are issued, the state is untouched, and the run
reports success. -/
theorem cname_idempotent_noop (env : Env2) (buildOk : Bool)
    (zones : Option (List PubZone)) (st : List RecordSet) (listOk : Bool)
    (deleteOk : Nat → Bool) (createOk : Bool) (newId : Nat) (r : RecordSet)
    (hd : pyTruthy env.domainName = true)
    (hi : initHuaweiDnsClient env.ak env.sk env.projectId buildOk = true)
    (hz : (getZoneIdFun env.zoneName zones).isSome = true)
    (hr : getExistingCnameRecord st (env.domainName.getD "") listOk = .ok (some r))
    (hv : r.records = [CNAME_TARGET]) :
    main2 env buildOk zones st listOk deleteOk createOk newId = .ok ⟨[], false, st, true⟩ :=
  main2SkipWhenFirstMatches env buildOk zones st listOk deleteOk createOk newId r [] hd hi
    hz hr hv

/-- C7 witness: an existing default-line CNAME record whose sole value
is the target leaves the run mutation-free. -/
theorem cname_idempotent_noop_witness :
    main2 ⟨some "ak", some "sk", some "pid", some "z", some "d"⟩ true (some [⟨"z.", 1⟩])
      [⟨7, "d.", "CNAME", some "default", ["cf.090227.xyz."], 300⟩] true
      (fun _ => true) true 9
      = .ok ⟨[], false, [⟨7, "d.", "CNAME", some "default", ["cf.090227.xyz."], 300⟩], true⟩ :=
  cname_idempotent_noop _ _ _ _ _ _ _ _ ⟨7, "d.", "CNAME", some "default",
    ["cf.090227.xyz."], 300⟩ (by decide) (by decide) (by decide) (by rfl) (by rfl)

/-- C10: the already-up-to-date check inspects only the first value of
the selected record set, so any default-line CNAME record whose first
value equals the target suppresses the delete and the create, even when
further values follow. -/
theorem cname_first_value_only (env : Env2) (buildOk : Bool)
    (zones : Option (List PubZone)) (st : List RecordSet) (listOk : Bool)
    (deleteOk : Nat → Bool) (createOk : Bool) (newId : Nat) (r : RecordSet)
    (rest : List String)
    (hd : pyTruthy env.domainName = true)
    (hi : initHuaweiDnsClient env.ak env.sk env.projectId buildOk = true)
    (hz : (getZoneIdFun env.zoneName zones).isSome = true)
    (hr : getExistingCnameRecord st (env.domainName.getD "") listOk = .ok (some r))
    (hv : r.records = CNAME_TARGET :: rest) :
    main2 env buildOk zones st listOk deleteOk createOk newId = .ok ⟨[], false, st, true⟩ :=
  main2SkipWhenFirstMatches env buildOk zones st listOk deleteOk createOk newId r rest hd hi
    hz hr hv

/-- C10 witness: a record with a second value beyond the matching first
one still suppresses all mutation. -/
theorem cname_first_value_only_witness :
    main2 ⟨some "ak", some "sk", some "pid", some "z", some "d"⟩ true (some [⟨"z.", 1⟩])
      [⟨7, "d.", "CNAME", some "default", ["cf.090227.xyz.", "other.example."], 300⟩] true
      (fun _ => true) true 9
      = .ok ⟨[], false,
          [⟨7, "d.", "CNAME", some "default", ["cf.090227.xyz.", "other.example."], 300⟩],
          true⟩ :=
  cname_first_value_only _ _ _ _ _ _ _ _ ⟨7, "d.", "CNAME", some "default",
    ["cf.090227.xyz.", "other.example."], 300⟩ ["other.example."] (by decide) (by decide)
    (by decide) (by rfl) (by rfl)

/-- C8 counterexample: a default-line CNAME record set with an empty
value list makes the run raise an uncaught IndexError (the
`record.records[0]` access) instead of returning normally. -/
theorem graceful_termination_counterexample :
    main2 ⟨some "ak", some "sk", some "pid", some "z", some "d"⟩ true (some [⟨"z.", 1⟩])
      [⟨7, "d.", "CNAME", some "default", [], 300⟩] true (fun _ => true) true 9
      = .error () := by
  rfl

/-- C8 amended: for every configuration and collaborator response in
which every returned record set's value list is non-empty, `main`
returns normally in both success and failure cases; an empty value list
is the one exception (see the counterexample). -/
theorem graceful_termination (env : Env2) (buildOk : Bool)
    (zones : Option (List PubZone)) (st : List RecordSet) (listOk : Bool)
    (deleteOk : Nat → Bool) (createOk : Bool) (newId : Nat)
    (h : ∀ r ∈ st, r.records ≠ []) :
    ∃ t, main2 env buildOk zones st listOk deleteOk createOk newId = .ok t := by
  cases hd : pyTruthy env.domainName with
  | false => simp [main2, hd]
  | true =>
    cases hi : initHuaweiDnsClient env.ak env.sk env.projectId buildOk with
    | false => simp [main2, hd, hi]
    | true =>
      cases hz : getZoneIdFun env.zoneName zones with
      | none => simp [main2, hd, hi, hz]
      | some z =>
        obtain ⟨o, ho, hrec⟩ :=
          getExistingCnameRecordOk st (env.domainName.getD "") listOk h
        cases o with
        | none => simp [main2, hd, hi, hz, ho]
        | some r =>
          cases hrc : r.records with
          | nil => exact absurd hrc (hrec r rfl)
          | cons v0 vs =>
            cases hb : (v0 == CNAME_TARGET) with
            | true => simp [main2, hd, hi, hz, ho, hrc, hb]
            | false => simp [main2, hd, hi, hz, ho, hrc, hb]

/-- C8 witness: a run over a state whose record sets all carry values
returns normally. -/
theorem graceful_termination_witness :
    ∃ t, main2 ⟨some "ak", some "sk", some "pid", some "z", some "d"⟩ true
      (some [⟨"z.", 1⟩]) [⟨7, "d.", "CNAME", some "default", ["x."], 300⟩] true
      (fun _ => true) true 9 = .ok t :=
  graceful_termination _ _ _ _ _ _ _ _ (by decide)
